import Mathlib

/-!
# A shallow embedding of the emu8080 core (src/cpu_state.rs, src/op_code.rs)

Machine integers are modelled as `Nat` with explicit reductions modulo
2^8 / 2^16 at the points where the Rust code performs wrapping `u8` / `u16`
arithmetic (release-profile semantics).  Fallible Rust functions
(`Result<_, MemoryError>`) become `Except`-valued Lean functions.  An
explicit Rust `panic!` (e.g. `RegisterPair::split` on `SP`) is modelled as
`Option.none`, lifted into the executor's error type as `ExecErr.panicked`.

One modelling note on error states: the Rust executor mutates `self` in
place, so an instruction that fails halfway through (say the second write
of `SHLD` going out of bounds) leaves the earlier writes applied.  Here
`System.execute` returns the pre-instruction state on every error path.
No theorem below inspects the memory state after a failed multi-write
instruction, so the difference is never load-bearing; for the single-write
and no-write error paths the returned state agrees with the source.
-/

namespace Emu8080

/-- `op_code.rs`: the 8-bit register ordinals; `M` is the HL-indirect
pseudo-operand (reading it through `Cpu::get` panics in the source). -/
inductive Register where
  | A | F | B | C | D | E | H | L | M
deriving DecidableEq, Repr

/-- The array ordinal of a register (`Register as usize` in the source). -/
def Register.idx : Register → Nat
  | .A => 0 | .F => 1 | .B => 2 | .C => 3 | .D => 4
  | .E => 5 | .H => 6 | .L => 7 | .M => 8

/-- `op_code.rs`: the 16-bit register pairs. -/
inductive RegisterPair where
  | PSW | B | D | H | SP
deriving DecidableEq, Repr

/-- `RegisterPair::split`: the (high, low) component registers.  The
source panics on `SP` ("Do we ever need this?"); that panic is modelled
as `none`. -/
def RegisterPair.split : RegisterPair → Option (Register × Register)
  | .PSW => some (.A, .F)
  | .B => some (.B, .C)
  | .D => some (.D, .E)
  | .H => some (.H, .L)
  | .SP => none

/-- `cpu_state.rs`: flag bit positions inside the F register. -/
def Flag.S : Nat := 7
def Flag.Z : Nat := 6
def Flag.Ac : Nat := 4
def Flag.P : Nat := 2
def Flag.Cy : Nat := 0

/-- `op_code.rs`: the decoded instruction set. -/
inductive Instruction where
  | Aci (b : Nat) | Adc (r : Register) | Add (r : Register) | Adi (b : Nat)
  | Ana (r : Register) | Ani (b : Nat)
  | Call (a : Nat) | Cc (a : Nat) | Cm (a : Nat) | Cma | Cmc
  | Cmp (r : Register) | Cnc (a : Nat) | Cnz (a : Nat) | Cp (a : Nat)
  | Cpe (a : Nat) | Cpi (b : Nat) | Cpo (a : Nat) | Cz (a : Nat)
  | Daa | Dad (rp : RegisterPair) | Dcr (r : Register) | Dcx (rp : RegisterPair)
  | Di | Ei | Hlt
  | In (b : Nat) | Inr (r : Register) | Inx (rp : RegisterPair)
  | Jc (a : Nat) | Jm (a : Nat) | Jmp (a : Nat) | Jnc (a : Nat) | Jnz (a : Nat)
  | Jp (a : Nat) | Jpe (a : Nat) | Jpo (a : Nat) | Jz (a : Nat)
  | Lda (a : Nat) | Ldax (rp : RegisterPair) | Lhld (a : Nat)
  | Lxi (rp : RegisterPair) (b2 b3 : Nat)
  | Mov (dst src : Register) | Mvi (dst : Register) (b : Nat) | Nop
  | Ora (r : Register) | Ori (b : Nat) | Out (b : Nat)
  | Pchl | Pop (rp : RegisterPair) | Push (rp : RegisterPair)
  | Ral | Rar | Rc | Ret | Rlc | Rm | Rnc | Rnz | Rp | Rpe | Rpo | Rrc
  | Rst (v : Nat) | Rz
  | Sbb (r : Register) | Sbi (b : Nat) | Shld (a : Nat) | Sphl
  | Sta (a : Nat) | Stax (rp : RegisterPair) | Stc
  | Sub (r : Register) | Sui (b : Nat)
  | Xchg | Xra (r : Register) | Xri (b : Nat) | Xthl

namespace Instruction

/-- `Instruction::size` from `op_code.rs`: the encoded byte length. -/
def size : Instruction → Nat
  | Lxi _ _ _ | Shld _ | Lhld _ | Sta _ | Lda _
  | Jnz _ | Jmp _ | Cnz _ | Jz _ | Cz _ | Call _
  | Jnc _ | Cnc _ | Jc _ | Cc _ | Jpo _ | Cpo _
  | Jpe _ | Cpe _ | Jp _ | Cp _ | Jm _ | Cm _ => 3
  | Mvi _ _ | Adi _ | Aci _ | Out _ | Sui _ | In _
  | Sbi _ | Ani _ | Xri _ | Ori _ | Cpi _ => 2
  | _ => 1

/-- `Instruction::cycles` from `op_code.rs`: the base cycle cost (the
source lists `Register::M` special cases before the catch-all arms; the
match arms below keep that first-match precedence). -/
def cycles : Instruction → Nat
  | Xthl => 18
  | Call _ => 17
  | Shld _ | Lhld _ => 16
  | Sta _ | Lda _ => 13
  | Cc _ | Cnc _ | Cz _ | Cnz _ | Cp _ | Cm _ | Cpe _ | Cpo _ | Rst _
  | Push _ => 11
  | Dad _ | Pop _ | In _ | Out _ | Lxi _ _ _ | Ret | Jmp _
  | Jc _ | Jnc _ | Jz _ | Jnz _ | Jp _ | Jm _ | Jpe _ | Jpo _
  | Inr .M | Dcr .M | Mvi .M _ => 10
  | Hlt | Ldax _ | Stax _
  | Add .M | Adc .M | Sub .M | Sbb .M | Xra .M | Ora .M | Cmp .M
  | Adi _ | Aci _ | Sui _ | Sbi _ | Ani _ | Xri _ | Ori _ | Cpi _
  | Mvi _ _ | Mov .M _ | Mov _ .M => 7
  | Pchl | Sphl | Rc | Rnc | Rz | Rnz | Rp | Rm | Rpe | Rpo
  | Dcx _ | Inx _ | Mov _ _ | Inr _ | Dcr _ => 5
  | Cmp _ | Ana _ | Nop | Cma | Stc | Cmc | Daa | Ei | Di
  | Rlc | Rrc | Ral | Rar
  | Add _ | Adc _ | Sub _ | Sbb _ | Xra _ | Ora _ | Xchg => 4

end Instruction

/-- `to_u16(l, h)` from `cpu_state.rs`: `((h as u16) << 8) | (l as u16)`. -/
def to_u16 (l h : Nat) : Nat := (h <<< 8) ||| l

/-- `to_u8(x)` from `cpu_state.rs`: the (high, low) byte split of a u16. -/
def to_u8 (x : Nat) : Nat × Nat := ((x >>> 8) % 256, x &&& 0xff)

/-- `add_u8_with_cy` from `cpu_state.rs`.  Returns `(out, cy, ac)` with
`out = a + b + c_in` wrapped to a byte, `cy = out < a`, and
`ac = (a & 0x0f) + (b & 0x0f) > 0x0f` — the source ignores the carry-in
in both flag computations. -/
def add_u8_with_cy (a b : Nat) (cy : Bool) : Nat × Bool × Bool :=
  let out := (a + b + (if cy then 1 else 0)) % 256
  let ac := decide ((0x0f &&& a) + (0x0f &&& b) > 0x0f)
  (out, decide (out < a), ac)

/-- `add_u8`: `add_u8_with_cy` with carry-in false. -/
def add_u8 (a b : Nat) : Nat × Bool × Bool := add_u8_with_cy a b false

/-- `add_u16` from `cpu_state.rs` (used by DAD). -/
def add_u16 (a b : Nat) : Nat × Bool :=
  let out := (a + b) % 65536
  (out, decide (out < a))

/-- `sub_u8_with_cy` from `cpu_state.rs`.  Returns `(out, cy, ac)` with
`out = a - b - c_in` wrapped to a byte (both operands are bytes at every
call site), `cy = out > a`, and `ac = (a & 0x0f) + (!b & 0x0f) > 0x0f` —
the source ignores the borrow-in in both flag computations. -/
def sub_u8_with_cy (a b : Nat) (cy : Bool) : Nat × Bool × Bool :=
  let out := (256 + a - (b + (if cy then 1 else 0))) % 256
  let ac := decide ((0x0f &&& a) + (0x0f &&& (b ^^^ 0xff)) > 0x0f)
  (out, decide (out > a), ac)

/-- `sub_u8`: `sub_u8_with_cy` with borrow-in false. -/
def sub_u8 (a b : Nat) : Nat × Bool × Bool := sub_u8_with_cy a b false

/-- Binary digit sum with structural fuel (`fuel ≥ bit length` gives the
true popcount; `count_ones` always passes enough). -/
def count_ones_go (fuel n : Nat) : Nat :=
  match fuel with
  | 0 => 0
  | fuel + 1 => if n = 0 then 0 else n % 2 + count_ones_go fuel (n / 2)

/-- `u8::count_ones`, used by the parity flag (`n` halvings always
exhaust `n`). -/
def count_ones (n : Nat) : Nat := count_ones_go n n

/-- `Cpu`: the eight byte registers (indexed by `Register.idx`), the
stack pointer, program counter and interrupt-enable latch. -/
structure Cpu where
  registers : List Nat
  sp : Nat
  pc : Nat
  inte : Bool
deriving DecidableEq, Repr

namespace Cpu

/-- `Cpu::new(pc)`. -/
def new (pc : Nat) : Cpu :=
  ⟨List.replicate 8 0, 0xf000, pc, false⟩

/-- `Cpu::get`: read a register byte.  The source panics on `M`; the
default value `0` here is never reached by the executions modelled below
(every `M` operand is resolved through memory first). -/
def get (self : Cpu) (r : Register) : Nat :=
  self.registers.getD r.idx 0

/-- `*self.get_mut(register) = v`: write a register byte (panics on `M`
in the source; the out-of-range `set` here is a no-op and unreached). -/
def setReg (self : Cpu) (r : Register) (v : Nat) : Cpu :=
  { self with registers := self.registers.set r.idx v }

/-- `Cpu::flags`: the F register byte. -/
def flags (self : Cpu) : Nat := self.get .F

/-- `Cpu::set`: set a flag bit in F. -/
def set (self : Cpu) (bit : Nat) : Cpu :=
  self.setReg .F (self.flags ||| (1 <<< bit))

/-- `Cpu::clear`: clear a flag bit in F (`&= !(1 << bit)` on a u8). -/
def clear (self : Cpu) (bit : Nat) : Cpu :=
  self.setReg .F (self.flags &&& (255 ^^^ (1 <<< bit)))

/-- `Cpu::toggle`. -/
def toggle (self : Cpu) (bit : Nat) (value : Bool) : Cpu :=
  if value then self.set bit else self.clear bit

/-- `Cpu::z` etc.: the five flag accessors. -/
def z (self : Cpu) : Bool := (self.flags &&& (1 <<< Flag.Z)) != 0

def s (self : Cpu) : Bool := (self.flags &&& (1 <<< Flag.S)) != 0

def p (self : Cpu) : Bool := (self.flags &&& (1 <<< Flag.P)) != 0

def cy (self : Cpu) : Bool := (self.flags &&& (1 <<< Flag.Cy)) != 0

def ac (self : Cpu) : Bool := (self.flags &&& (1 <<< Flag.Ac)) != 0

/-- `Cpu::update_flags`: S from the sign bit (`(byte as i8) < 0`),
Z from `byte == 0`, P from even popcount. -/
def update_flags (self : Cpu) (byte : Nat) : Cpu :=
  ((self.toggle Flag.S (byte.testBit 7)).toggle Flag.Z (byte == 0)).toggle
    Flag.P (count_ones byte % 2 == 0)

/-- `Cpu::update_flags_with_carry`. -/
def update_flags_with_carry (self : Cpu) (byte : Nat) (cy : Bool) : Cpu :=
  (self.update_flags byte).toggle Flag.Cy cy

/-- `Cpu::update_flags_with_carries`. -/
def update_flags_with_carries (self : Cpu) (byte : Nat) (cy ac : Bool) : Cpu :=
  ((self.update_flags byte).toggle Flag.Cy cy).toggle Flag.Ac ac

/-- `Cpu::update_flags_with_ac`. -/
def update_flags_with_ac (self : Cpu) (byte : Nat) (ac : Bool) : Cpu :=
  (self.update_flags byte).toggle Flag.Ac ac

/-- `Cpu::get_rp`: the 16-bit value of a pair via `split` (so `none` —
a panic in the source — for `SP`). -/
def get_rp (self : Cpu) (rp : RegisterPair) : Option Nat :=
  rp.split.map fun hl => to_u16 (self.get hl.2) (self.get hl.1)

end Cpu

/-- `cpu_state.rs`: the memory error taxonomy. -/
inductive MemoryError where
  | OutOfBoundRead (addr : Nat)
  | ReadOnlyWrite (addr : Nat)
  | OverlappingRomSections (sr len offset blen : Nat)
  | TooLongRomSection (offset len ramLen : Nat)
deriving DecidableEq, Repr

/-- `Ram`: the flat byte buffer plus the registered ROM ranges
`(start, length)`. -/
structure Ram where
  ram : List Nat
  rom_ranges : List (Nat × Nat)
deriving DecidableEq, Repr

namespace Ram

/-- `Ram::new(ram_size)`: a zeroed buffer, no ROM ranges.  (The source
constructor takes no "allow ROM write" flag.) -/
def new (ram_size : Nat) : Ram :=
  ⟨List.replicate ram_size 0, []⟩

/-- `Ram::register_rom`: bounds check, then overlap check against every
previously registered range (first offender reported), then record the
range and copy the bytes.  State-threaded: the second component is the
buffer after the call. -/
def register_rom (self : Ram) (rom : List Nat) (offset : Nat) :
    Except MemoryError Unit × Ram :=
  let s := offset
  let e := s + rom.length
  if e > self.ram.length then
    (.error (.TooLongRomSection offset rom.length self.ram.length), self)
  else
    match self.rom_ranges.find? (fun r => e > r.1 && r.1 + r.2 > s) with
    | some (sr, length) =>
        (.error (.OverlappingRomSections sr length offset (e - s)), self)
    | none =>
        (.ok (), ⟨(self.ram.take s ++ rom ++ self.ram.drop e),
                  self.rom_ranges ++ [(s, e - s)]⟩)

/-- `Ram::get`: a read; succeeds for every in-bounds address, ROM or not. -/
def get (self : Ram) (addr : Nat) : Except MemoryError Nat :=
  match self.ram[addr]? with
  | some v => .ok v
  | none => .error (.OutOfBoundRead addr)

/-- `Ram::get_mut` followed by the caller's byte assignment.  The ROM
range check that the in-file test `rom_boundaries` expects is commented
out in the source (`// TODO: apparently globals are stored in ROM...`),
so the only failure is an out-of-bounds address. -/
def write (self : Ram) (addr : Nat) (v : Nat) : Except MemoryError Ram :=
  if addr < self.ram.length then
    .ok ⟨self.ram.set addr v, self.rom_ranges⟩
  else
    .error (.OutOfBoundRead addr)

end Ram

/-- Failure modes of `System::execute`: a propagated `MemoryError`, the
`_ => Err(anyhow!("OP code {:?}", ..))` fallback for unimplemented
opcodes (HLT, RLC, SPHL), or an explicit Rust `panic!` reached through
`RegisterPair::split` on `SP`. -/
inductive ExecErr where
  | mem (e : MemoryError)
  | unsupported
  | panicked
deriving DecidableEq, Repr

/-- Lift a memory-level result into the executor's error type. -/
def liftMem {α : Type} : Except MemoryError α → Except ExecErr α
  | .ok v => .ok v
  | .error e => .error (.mem e)

/-- `System`: the CPU plus the RAM. -/
structure System where
  cpu : Cpu
  ram : Ram
deriving DecidableEq, Repr

namespace System

/-- `System::new`. -/
def new (ram : Ram) (pc : Nat) : System := ⟨Cpu.new pc, ram⟩

/-- `System::a`. -/
def a (self : System) : Nat := self.cpu.get .A

/-- `*self.a_mut() = v`. -/
def setA (self : System) (v : Nat) : System :=
  { self with cpu := self.cpu.setReg .A v }

/-- `System::get_rp` (delegates to `Cpu::get_rp`). -/
def get_rp (self : System) (rp : RegisterPair) : Option Nat :=
  self.cpu.get_rp rp

/-- `System::get`: a register read with `M` resolved through RAM at HL. -/
def getReg (self : System) (reg : Register) : Except ExecErr Nat :=
  match reg with
  | .M =>
    match self.get_rp .H with
    | some addr => liftMem (self.ram.get addr)
    | none => .error .panicked
  | r => .ok (self.cpu.get r)

/-- `System::read` (same resolution as `System::get`). -/
def readReg (self : System) (src : Register) : Except ExecErr Nat :=
  if src = .M then
    match self.get_rp .H with
    | some addr => liftMem (self.ram.get addr)
    | none => .error .panicked
  else .ok (self.cpu.get src)

/-- `*self.write(dst)? = v`: a register write with `M` resolved through
RAM at HL. -/
def writeReg (self : System) (dst : Register) (v : Nat) : Except ExecErr System :=
  if dst = .M then
    match self.get_rp .H with
    | some addr => liftMem ((self.ram.write addr v).map fun r => { self with ram := r })
    | none => .error .panicked
  else .ok { self with cpu := self.cpu.setReg dst v }

/-- `System::push`: low byte at SP-2, high byte at SP-1, SP -= 2
(u16 arithmetic wraps). -/
def push (self : System) (rp : RegisterPair) : Except ExecErr System :=
  match self.get_rp rp with
  | none => .error .panicked
  | some v => do
    let (h, l) := to_u8 v
    let sp := self.cpu.sp
    let r1 ← liftMem (self.ram.write ((sp + 65536 - 2) % 65536) l)
    let r2 ← liftMem (r1.write ((sp + 65536 - 1) % 65536) h)
    .ok { self with ram := r2,
                    cpu := { self.cpu with sp := (sp + 65536 - 2) % 65536 } }

/-- `System::pop`: low from SP, high from SP+1, SP += 2. -/
def pop (self : System) (rp : RegisterPair) : Except ExecErr System :=
  match rp.split with
  | none => .error .panicked
  | some (h, l) => do
    let lv ← liftMem (self.ram.get self.cpu.sp)
    let hv ← liftMem (self.ram.get ((self.cpu.sp + 1) % 65536))
    .ok { self with cpu :=
      { (self.cpu.setReg l lv).setReg h hv with sp := (self.cpu.sp + 2) % 65536 } }

/-- `System::call`: push the follow-on pc (high at SP-1 first, then low
at SP-2), SP -= 2, and return the jump target as the new pc. -/
def call (self : System) (addr pc : Nat) : Except ExecErr (Nat × System) := do
  let l := pc &&& 0xff
  let h := (pc >>> 8) % 256
  let r1 ← liftMem (self.ram.write ((self.cpu.sp + 65536 - 1) % 65536) h)
  let r2 ← liftMem (r1.write ((self.cpu.sp + 65536 - 2) % 65536) l)
  let c1 := { self.cpu with sp := (self.cpu.sp + 65536 - 2) % 65536 }
  .ok (addr, { self with ram := r2, cpu := c1 })

/-- `System::ret`: pop a 16-bit address (low from SP, high from SP+1),
SP += 2, and return it as the new pc. -/
def ret (self : System) : Except ExecErr (Nat × System) := do
  let l ← liftMem (self.ram.get self.cpu.sp)
  let h ← liftMem (self.ram.get ((self.cpu.sp + 1) % 65536))
  .ok (to_u16 l h, { self with cpu := { self.cpu with sp := (self.cpu.sp + 2) % 65536 } })

/-- `System::sui`. -/
def sui (self : System) (byte : Nat) : System :=
  let (new_a, cy1, ac1) := sub_u8 self.a byte
  let s1 := self.setA new_a
  { s1 with cpu := s1.cpu.update_flags_with_carries new_a cy1 ac1 }

/-- `System::sbb`. -/
def sbb (self : System) (reg : Register) : Except ExecErr System := do
  let rv ← self.getReg reg
  let (a1, cy1, ac1) := sub_u8_with_cy self.a rv self.cpu.cy
  let s1 := self.setA a1
  .ok { s1 with cpu := s1.cpu.update_flags_with_carries a1 cy1 ac1 }

/-- `System::sbi`. -/
def sbi (self : System) (byte : Nat) : System :=
  let (a1, cy1, ac1) := sub_u8_with_cy self.a byte self.cpu.cy
  let s1 := { self with cpu := self.cpu.update_flags_with_carries a1 cy1 ac1 }
  s1.setA a1

/-- `System::stax`. -/
def stax (self : System) (rp : RegisterPair) : Except ExecErr System :=
  match self.get_rp rp with
  | none => .error .panicked
  | some addr =>
    liftMem ((self.ram.write addr self.a).map fun r => { self with ram := r })

/-- `System::daa`: the source returns early — touching nothing — when
the low nibble is ≤ 9 and AC is clear, and otherwise runs one or two
`add_u8` corrections, each overwriting CY/AC with that addition's own
carries. -/
def daa (self : System) : System :=
  let a0 := self.a
  let lower_bits := 0x0f &&& a0
  if lower_bits ≤ 9 ∧ self.cpu.ac = false then self
  else
    let (a1, cy1, ac1) := add_u8 a0 6
    let upper_bits := (0xf0 &&& a1) >>> 4
    if upper_bits ≤ 9 ∧ cy1 = false then
      let s1 := { self with cpu := self.cpu.update_flags_with_carries a1 cy1 ac1 }
      s1.setA a1
    else
      let (a2, cy2, ac2) := add_u8 a1 0x60
      let s1 := { self with cpu := self.cpu.update_flags_with_carries a2 cy2 ac2 }
      s1.setA a2

/-- `System::ral`.  The source computes `next_cy = (0x80 & a) == 1`,
which compares a value in {0, 0x80} against 1. -/
def ral (self : System) : System :=
  let a0 := self.a
  let next_cy := decide (0x80 &&& a0 = 1)
  let a1 := if self.cpu.cy then ((a0 <<< 1) % 256) ||| 1 else (a0 <<< 1) % 256
  let s1 := { self with cpu := self.cpu.toggle Flag.Cy next_cy }
  s1.setA a1

/-- `System::rar`. -/
def rar (self : System) : System :=
  let a0 := self.a
  let next_cy := decide (1 &&& a0 = 1)
  let a1 := if self.cpu.cy then (a0 >>> 1) ||| 0x80 else a0 >>> 1
  let s1 := { self with cpu := self.cpu.toggle Flag.Cy next_cy }
  s1.setA a1

/-- `System::lhld`. -/
def lhld (self : System) (addr : Nat) : Except ExecErr System := do
  let l ← liftMem (self.ram.get addr)
  let h ← liftMem (self.ram.get ((addr + 1) % 65536))
  .ok { self with cpu := (self.cpu.setReg .L l).setReg .H h }

/-- `System::shld`. -/
def shld (self : System) (addr : Nat) : Except ExecErr System := do
  let r1 ← liftMem (self.ram.write addr (self.cpu.get .L))
  let r2 ← liftMem (r1.write ((addr + 1) % 65536) (self.cpu.get .H))
  .ok { self with ram := r2 }

/-- `System::pchl`: `(pch << 8) + pcl`. -/
def pchl (self : System) : Nat :=
  (self.cpu.get .H <<< 8) + self.cpu.get .L

/-- `System::output`: `io.write(byte, self.a())` is an effect on the
external port device only; the system state is unchanged. -/
def output (self : System) (_byte : Nat) (_io : Nat → Nat) : Except ExecErr System :=
  .ok self

/-- `System::input`: A ← `io.read(byte)`. -/
def input (self : System) (byte : Nat) (io : Nat → Nat) : Except ExecErr System :=
  .ok (self.setA (io byte))

/-- `System::sta`. -/
def sta (self : System) (addr : Nat) : Except ExecErr System :=
  liftMem ((self.ram.write addr self.a).map fun r => { self with ram := r })

/-- `System::xra`. -/
def xra (self : System) (dst : Register) : Except ExecErr System := do
  let rv ← self.getReg dst
  let s1 := self.setA (self.a ^^^ rv)
  let s2 := { s1 with cpu := s1.cpu.update_flags s1.a }
  .ok { s2 with cpu := s2.cpu.clear Flag.Cy }

/-- `System::ana`. -/
def ana (self : System) (dst : Register) : Except ExecErr System := do
  let rv ← self.getReg dst
  let s1 := self.setA (self.a &&& rv)
  let s2 := { s1 with cpu := s1.cpu.update_flags s1.a }
  .ok { s2 with cpu := s2.cpu.clear Flag.Cy }

/-- `System::ora`. -/
def ora (self : System) (dst : Register) : Except ExecErr System := do
  let rv ← self.getReg dst
  let s1 := self.setA (self.a ||| rv)
  let s2 := { s1 with cpu := s1.cpu.update_flags s1.a }
  .ok { s2 with cpu := s2.cpu.clear Flag.Cy }

/-- `System::ori`. -/
def ori (self : System) (byte : Nat) : System :=
  let a1 := byte ||| self.a
  let s1 := { self with cpu := self.cpu.update_flags_with_carry a1 false }
  s1.setA a1

/-- `System::xri`. -/
def xri (self : System) (byte : Nat) : System :=
  let a1 := byte ^^^ self.a
  let s1 := { self with cpu := self.cpu.update_flags_with_carry a1 false }
  s1.setA a1

/-- `System::adi`. -/
def adi (self : System) (byte : Nat) : System :=
  let (a1, cy1, ac1) := add_u8 self.a byte
  let s1 := { self with cpu := self.cpu.update_flags_with_carries a1 cy1 ac1 }
  s1.setA a1

/-- `System::adc`. -/
def adc (self : System) (reg : Register) : Except ExecErr System := do
  let rv ← self.getReg reg
  let (a1, cy1, ac1) := add_u8_with_cy self.a rv self.cpu.cy
  let s1 := { self with cpu := self.cpu.update_flags_with_carries a1 cy1 ac1 }
  .ok (s1.setA a1)

/-- `System::aci`. -/
def aci (self : System) (byte : Nat) : System :=
  let (a1, cy1, ac1) := add_u8_with_cy self.a byte self.cpu.cy
  let s1 := { self with cpu := self.cpu.update_flags_with_carries a1 cy1 ac1 }
  s1.setA a1

/-- `System::ani`. -/
def ani (self : System) (byte : Nat) : System :=
  let a1 := self.a &&& byte
  let s1 := { self with cpu := self.cpu.update_flags_with_carry a1 false }
  s1.setA a1

/-- `System::add`. -/
def add (self : System) (reg : Register) : Except ExecErr System := do
  let rv ← self.getReg reg
  let (a1, cy1, ac1) := add_u8 self.a rv
  let s1 := { self with cpu := self.cpu.update_flags_with_carries a1 cy1 ac1 }
  .ok (s1.setA a1)

/-- `System::sub`. -/
def sub (self : System) (reg : Register) : Except ExecErr System := do
  let rv ← self.getReg reg
  let (a1, cy1, ac1) := sub_u8 self.a rv
  let s1 := { self with cpu := self.cpu.update_flags_with_carries a1 cy1 ac1 }
  .ok (s1.setA a1)

/-- `System::cmp`: SUB flags, accumulator untouched. -/
def cmp (self : System) (reg : Register) : Except ExecErr System := do
  let rv ← self.getReg reg
  let (a1, cy1, ac1) := sub_u8 self.a rv
  .ok { self with cpu := self.cpu.update_flags_with_carries a1 cy1 ac1 }

/-- `System::rrc` (`a.rotate_right(1)` on a u8). -/
def rrc (self : System) : System :=
  let a0 := self.a
  let s1 := { self with cpu := self.cpu.toggle Flag.Cy (decide (a0 &&& 1 = 1)) }
  s1.setA ((a0 >>> 1) ||| ((a0 &&& 1) <<< 7))

/-- `System::cpi`. -/
def cpi (self : System) (byte : Nat) : System :=
  let (f, cy1, ac1) := sub_u8 self.a byte
  { self with cpu := self.cpu.update_flags_with_carries f cy1 ac1 }

/-- `System::dcr`: the source reads and writes through one
`System::get_mut` pointer; modelled as a read then a write at the same
resolved location. -/
def dcr (self : System) (reg : Register) : Except ExecErr System := do
  let v ← self.getReg reg
  let (val, _, ac1) := sub_u8 v 1
  let s1 ← self.writeReg reg val
  .ok { s1 with cpu := s1.cpu.update_flags_with_ac val ac1 }

/-- `System::inx`: carry from the low byte into the high byte by hand
(`*h += 1` wraps here; `split` on `SP` is a panic, i.e. `none`). -/
def inx (self : System) (rp : RegisterPair) : Option System :=
  match rp.split with
  | none => none
  | some (h, l) =>
    let lv := self.cpu.get l
    if lv = 255 then
      let c1 := self.cpu.setReg l 0
      some { self with cpu := c1.setReg h ((c1.get h + 1) % 256) }
    else
      some { self with cpu := self.cpu.setReg l (lv + 1) }

/-- `System::dcx` (`wrapping_sub(1)` on the high byte). -/
def dcx (self : System) (rp : RegisterPair) : Option System :=
  match rp.split with
  | none => none
  | some (h, l) =>
    let lv := self.cpu.get l
    if lv = 0 then
      let c1 := self.cpu.setReg l 255
      some { self with cpu := c1.setReg h ((c1.get h + 255) % 256) }
    else
      some { self with cpu := self.cpu.setReg l (lv - 1) }

/-- `System::inr` (same `get_mut` modelling note as `dcr`). -/
def inr (self : System) (reg : Register) : Except ExecErr System := do
  let v ← self.getReg reg
  let (val, _, ac1) := add_u8 v 1
  let s1 ← self.writeReg reg val
  .ok { s1 with cpu := s1.cpu.update_flags_with_ac val ac1 }

/-- `System::ldax`. -/
def ldax (self : System) (rp : RegisterPair) : Except ExecErr System :=
  match self.get_rp rp with
  | none => .error .panicked
  | some addr => do
    let v ← liftMem (self.ram.get addr)
    .ok (self.setA v)

/-- `System::lda`. -/
def lda (self : System) (addr : Nat) : Except ExecErr System := do
  let v ← liftMem (self.ram.get addr)
  .ok (self.setA v)

/-- `System::dad` (`get_rp` panics on `SP`, hence `none`). -/
def dad (self : System) (rp : RegisterPair) : Option System :=
  match self.get_rp rp with
  | none => none
  | some to_add =>
    match self.get_rp .H with
    | none => none
    | some to_add_to =>
      let (val, cy1) := add_u16 to_add to_add_to
      let (h, l) := to_u8 val
      let c1 := self.cpu.toggle Flag.Cy cy1
      some { self with cpu := (c1.setReg .H h).setReg .L l }

/-- `System::lxi` (`SP` is special-cased before `split`). -/
def lxi (self : System) (rp : RegisterPair) (lb hb : Nat) : Option System :=
  if rp = .SP then
    some { self with cpu := { self.cpu with sp := to_u16 lb hb } }
  else
    match rp.split with
    | none => none
    | some (h, l) =>
      some { self with cpu := (self.cpu.setReg h hb).setReg l lb }

/-- `System::mvi`. -/
def mvi (self : System) (dst : Register) (value : Nat) : Except ExecErr System :=
  self.writeReg dst value

/-- `System::mov` (the source value is read before the place is
written). -/
def mov (self : System) (dst src : Register) : Except ExecErr System := do
  let v ← self.readReg src
  self.writeReg dst v

/-- `System::xchg`. -/
def xchg (self : System) : System :=
  let d := self.cpu.get .D
  let e := self.cpu.get .E
  let c1 := self.cpu.setReg .D (self.cpu.get .H)
  let c2 := c1.setReg .E (c1.get .L)
  let c3 := c2.setReg .H d
  let c4 := c3.setReg .L e
  { self with cpu := c4 }

/-- `System::xthl`. -/
def xthl (self : System) : Except ExecErr System := do
  let sp0 ← liftMem (self.ram.get self.cpu.sp)
  let sp1 ← liftMem (self.ram.get ((self.cpu.sp + 1) % 65536))
  let r1 ← liftMem (self.ram.write self.cpu.sp (self.cpu.get .L))
  let r2 ← liftMem (r1.write ((self.cpu.sp + 1) % 65536) (self.cpu.get .H))
  .ok { self with ram := r2, cpu := (self.cpu.setReg .L sp0).setReg .H sp1 }

/-- `System::execute`: compute the linear follow-on pc and the base
cycles, dispatch on the instruction, then commit the resulting pc.  The
returned `System` on the error path is the pre-instruction state (see
the modelling note at the top of the file). -/
def execute (self : System) (instruction : Instruction) (io : Nat → Nat) :
    Except ExecErr Nat × System :=
  let pc := (self.cpu.pc + instruction.size) % 65536
  let cycles := instruction.cycles
  let step : Except ExecErr (Nat × System) :=
    match instruction with
    | .Nop => .ok (pc, self)
    | .Cc addr => if self.cpu.cy then self.call addr pc else .ok (pc, self)
    | .Cm addr => if self.cpu.s then self.call addr pc else .ok (pc, self)
    | .Cp addr => if !self.cpu.s then self.call addr pc else .ok (pc, self)
    | .Cnc addr => if !self.cpu.cy then self.call addr pc else .ok (pc, self)
    | .Cpo addr => if !self.cpu.p then self.call addr pc else .ok (pc, self)
    | .Cpe addr => if self.cpu.p then self.call addr pc else .ok (pc, self)
    | .Cnz addr => if !self.cpu.z then self.call addr pc else .ok (pc, self)
    | .Cz addr => if self.cpu.z then self.call addr pc else .ok (pc, self)
    | .Jnz addr => .ok (if !self.cpu.z then addr else pc, self)
    | .Jz addr => .ok (if self.cpu.z then addr else pc, self)
    | .Jc addr => .ok (if self.cpu.cy then addr else pc, self)
    | .Jnc addr => .ok (if !self.cpu.cy then addr else pc, self)
    | .Jpo addr => .ok (if !self.cpu.p then addr else pc, self)
    | .Jpe addr => .ok (if self.cpu.p then addr else pc, self)
    | .Jm addr => .ok (if self.cpu.s then addr else pc, self)
    | .Jp addr => .ok (if !self.cpu.s then addr else pc, self)
    | .Rz => if self.cpu.z then self.ret else .ok (pc, self)
    | .Rm => if self.cpu.s then self.ret else .ok (pc, self)
    | .Rp => if !self.cpu.s then self.ret else .ok (pc, self)
    | .Rnz => if !self.cpu.z then self.ret else .ok (pc, self)
    | .Rpe => if self.cpu.p then self.ret else .ok (pc, self)
    | .Rpo => if !self.cpu.p then self.ret else .ok (pc, self)
    | .Rc => if self.cpu.cy then self.ret else .ok (pc, self)
    | .Rnc => if !self.cpu.cy then self.ret else .ok (pc, self)
    | .Cma => .ok (pc, self.setA (self.a ^^^ 0xff))
    | .Push rp => (self.push rp).map fun s1 => (pc, s1)
    | .Pop rp => (self.pop rp).map fun s1 => (pc, s1)
    | .Cpi byte => .ok (pc, self.cpi byte)
    | .Ret => self.ret
    | .Dcr reg => (self.dcr reg).map fun s1 => (pc, s1)
    | .Inx rp =>
      match self.inx rp with
      | some s1 => .ok (pc, s1)
      | none => .error .panicked
    | .Dcx rp =>
      match self.dcx rp with
      | some s1 => .ok (pc, s1)
      | none => .error .panicked
    | .Inr reg => (self.inr reg).map fun s1 => (pc, s1)
    | .Ldax rp => (self.ldax rp).map fun s1 => (pc, s1)
    | .Lda addr => (self.lda addr).map fun s1 => (pc, s1)
    | .Dad rp =>
      match self.dad rp with
      | some s1 => .ok (pc, s1)
      | none => .error .panicked
    | .Lxi rp b2 b3 =>
      match self.lxi rp b2 b3 with
      | some s1 => .ok (pc, s1)
      | none => .error .panicked
    | .Jmp addr => .ok (addr, self)
    | .Call addr => self.call addr pc
    | .Mvi dst val => (self.mvi dst val).map fun s1 => (pc, s1)
    | .Mov dst src => (self.mov dst src).map fun s1 => (pc, s1)
    | .Xchg => .ok (pc, self.xchg)
    | .Xthl => (self.xthl).map fun s1 => (pc, s1)
    | .Rrc => .ok (pc, self.rrc)
    | .Ani byte => .ok (pc, self.ani byte)
    | .Adi byte => .ok (pc, self.adi byte)
    | .Aci byte => .ok (pc, self.aci byte)
    | .Sta addr => (self.sta addr).map fun s1 => (pc, s1)
    | .Xra dst => (self.xra dst).map fun s1 => (pc, s1)
    | .Ana dst => (self.ana dst).map fun s1 => (pc, s1)
    | .Ora dst => (self.ora dst).map fun s1 => (pc, s1)
    | .Ori byte => .ok (pc, self.ori byte)
    | .Xri byte => .ok (pc, self.xri byte)
    | .Out byte => (self.output byte io).map fun s1 => (pc, s1)
    | .In byte => (self.input byte io).map fun s1 => (pc, s1)
    | .Sui byte => .ok (pc, self.sui byte)
    | .Sbb reg => (self.sbb reg).map fun s1 => (pc, s1)
    | .Adc reg => (self.adc reg).map fun s1 => (pc, s1)
    | .Sbi byte => .ok (pc, self.sbi byte)
    | .Stax rp => (self.stax rp).map fun s1 => (pc, s1)
    | .Add reg => (self.add reg).map fun s1 => (pc, s1)
    | .Sub reg => (self.sub reg).map fun s1 => (pc, s1)
    | .Cmp reg => (self.cmp reg).map fun s1 => (pc, s1)
    | .Stc => .ok (pc, { self with cpu := self.cpu.set Flag.Cy })
    | .Cmc => .ok (pc, { self with cpu := self.cpu.toggle Flag.Cy (!self.cpu.cy) })
    | .Daa => .ok (pc, self.daa)
    | .Rar => .ok (pc, self.rar)
    | .Ral => .ok (pc, self.ral)
    | .Lhld addr => (self.lhld addr).map fun s1 => (pc, s1)
    | .Shld addr => (self.shld addr).map fun s1 => (pc, s1)
    | .Ei => .ok (pc, { self with cpu := { self.cpu with inte := true } })
    | .Di => .ok (pc, { self with cpu := { self.cpu with inte := false } })
    | .Pchl => .ok (self.pchl, self)
    | .Rst value => self.call ((8 * value) % 65536) pc
    | _ => .error .unsupported
  match step with
  | .ok (pcFinal, s1) => (.ok cycles, { s1 with cpu := { s1.cpu with pc := pcFinal } })
  | .error e => (.error e, self)

/-- `System::process`: the INTE-gated interrupt entry. -/
def process (self : System) (instruction : Instruction) (io : Nat → Nat) :
    Except ExecErr Nat × System :=
  if self.cpu.inte then self.execute instruction io else (.ok 0, self)

end System

/-! ## Concrete fixtures -/

/-- The I/O port read stub used by the concrete executions below. -/
def ioZero : Nat → Nat := fun _ => 0

/-- INTE set, PC = 0x0010, SP = 0x0100, 256 bytes of RAM. -/
def sysC2 : System := ⟨⟨List.replicate 8 0, 0x100, 0x10, true⟩, Ram.new 0x100⟩

/-- A = 0xA0, all flags clear. -/
def sysC3 : System := ⟨⟨[0xA0, 0, 0, 0, 0, 0, 0, 0], 0x100, 0, false⟩, Ram.new 1⟩

/-- A = 0xFF, all flags clear (the first DAA stage carries here). -/
def sysC3sticky : System := ⟨⟨[0xFF, 0, 0, 0, 0, 0, 0, 0], 0x100, 0, false⟩, Ram.new 1⟩

/-- A = 0x80 (sign bit set), CY set. -/
def sysC6 : System := ⟨⟨[0x80, 1, 0, 0, 0, 0, 0, 0], 0x100, 0, false⟩, Ram.new 1⟩

/-- An arbitrary small machine state. -/
def sysC7 : System := ⟨⟨List.replicate 8 0, 0x100, 0x10, false⟩, Ram.new 4⟩

/-- An arbitrary small machine state. -/
def sysC8 : System := ⟨⟨List.replicate 8 0, 0x100, 0x10, false⟩, Ram.new 1⟩

/-! ## Claim theorems -/

/-- **C1** — the claim says a write into a registered ROM range fails
with `ReadOnlyWrite` and leaves the byte unchanged.  Evaluating the code
at the failing input: after registering a 10-byte ROM at offset 50 in a
100-byte `Ram`, the write at address 50 succeeds and overwrites the byte
(the ROM-range guard is commented out in `Ram::get_mut`); the read part
of the claim does hold (address 55 reads back the ROM byte). -/
theorem rom_range_write_succeeds :
    (((Ram.register_rom (Ram.new 100) (List.replicate 10 7) 50).2.write 50 1).toOption.map
      fun r => r.ram.getD 50 0) = some 1 ∧
    ((Ram.register_rom (Ram.new 100) (List.replicate 10 7) 50).2.get 55) = .ok 7 :=
  ⟨rfl, rfl⟩

set_option maxRecDepth 8192 in
/-- **C2** — the claim says that with INTE set, `process` executes the
injected instruction without advancing PC past it, so `process(Rst 1)`
pushes the unadvanced PC.  Evaluating the code at the failing input
(INTE set, PC = 0x0010, SP = 0x0100): the byte pushed at SP-2 is 0x11 =
PC + size(RST), not 0x10, because `execute` advances the local pc before
dispatching and `process` does not compensate. -/
theorem process_rst_pushes_advanced_pc :
    (sysC2.process (.Rst 1) ioZero).1 = .ok 11 ∧
    (sysC2.process (.Rst 1) ioZero).2.cpu.pc = 0x0008 ∧
    (sysC2.process (.Rst 1) ioZero).2.cpu.sp = 0x00FE ∧
    (sysC2.process (.Rst 1) ioZero).2.ram.ram.getD 0x00FE 0 = 0x11 ∧
    (sysC2.process (.Rst 1) ioZero).2.ram.ram.getD 0x00FF 0 = 0x00 :=
  ⟨rfl, rfl, rfl, rfl, rfl⟩

/-- **C3** — the claim describes the two-step BCD correction with a
sticky CY (a carry set by the first step survives the second).
Evaluating the code at the failing inputs: with A = 0xA0 and
all flags clear, `daa` returns early and changes nothing (the claim
requires the second step to add 0x60, giving A = 0x00 and CY set); with
A = 0xFF the first stage carries but the second stage's `add_u8`
overwrites CY with its own carry, leaving CY clear (the claim requires
the sticky carry to survive). -/
theorem daa_early_return_and_lost_carry :
    System.daa sysC3 = sysC3 ∧
    (System.daa sysC3sticky).a = 0x65 ∧
    (System.daa sysC3sticky).cpu.cy = false :=
  ⟨rfl, rfl, rfl⟩

/-- **C4** — the claim says CY is set iff `a + b + c_in ≥ 256` and AC
iff `(a & 0x0F) + (b & 0x0F) + c_in > 0x0F`.  Evaluating the code at the
failing inputs: `add_u8_with_cy 0 0xFF true` has mathematical sum 256
and low-nibble sum 16, yet the code reports CY = false (its `out < a`
test fails at `out = 0, a = 0`) and AC = false (the carry-in is ignored);
`add_u8_with_cy 8 7 true` has low-nibble sum 16 yet AC = false. -/
theorem add_u8_with_cy_drops_carry_in :
    add_u8_with_cy 0 0xFF true = (0, false, false) ∧
    add_u8_with_cy 8 7 true = (0x10, false, false) :=
  ⟨rfl, rfl⟩

/-- **C5** — the claim says AC is set iff
`(a & 0x0F) + (~b & 0x0F) + ¬c_in > 0x0F` and CY iff the mathematical
result is negative.  Evaluating the code at the failing inputs: for the
plain subtraction `0 - 0xF0` the claim's AC sum is 0 + 15 + 1 = 16 > 15
yet the code reports AC = false (the `¬c_in` term is missing); for
`0xFF - 0xFF - 1` the mathematical result is −1 yet the code reports
CY = false (its `out > a` test fails at `out = a = 0xFF`). -/
theorem sub_u8_with_cy_drops_borrow_in :
    sub_u8 0 0xF0 = (0x10, true, false) ∧
    sub_u8_with_cy 0xFF 0xFF true = (0xFF, false, false) :=
  ⟨rfl, rfl⟩

/-- `0x80 &&& a` is a multiple of 128, never 1, so the comparison
`(0x80 & a) == 1` in `System::ral` is constantly false. -/
theorem and_128_ne_one (a : Nat) : ¬ (0x80 &&& a = 1) := by
  intro hc
  rw [show (0x80 : Nat) = 2 ^ 7 from rfl, Nat.two_pow_and] at hc
  cases a.testBit 7 <;> simp at hc

/-- On every state, RAL leaves the carry flag clear. -/
theorem ral_cy_false (s : System) : (System.ral s).cpu.cy = false := by
  have hd : decide (0x80 &&& s.a = 1) = false := decide_eq_false (and_128_ne_one _)
  obtain ⟨⟨regs, sp, pc, inte⟩, ram⟩ := s
  simp only [System.ral, hd, Cpu.toggle, Bool.false_eq_true, if_false,
    System.setA, Cpu.clear, Cpu.setReg, Cpu.flags, Cpu.get, Cpu.cy, Register.idx]
  match regs with
  | [] => simp [List.getD]
  | [r0] => simp [List.getD]
  | r0 :: r1 :: rest => simp [List.getD, Nat.and_assoc, Flag.Cy]

/-- **C6** — the claim says RAL sets CY to bit 7 of the old accumulator
(and touches no other flag).  The code's `next_cy = (0x80 & a) == 1` is
always false, so CY ends up clear on every state; in particular on
`sysC6` (A = 0x80, CY set) the new accumulator is 0x01 as claimed but
the whole flag byte is 0 where the claim requires CY = 1. -/
theorem ral_never_sets_carry :
    (∀ s : System, (System.ral s).cpu.cy = false) ∧
    (System.ral sysC6).a = 0x01 ∧
    (System.ral sysC6).cpu.flags = 0 :=
  ⟨ral_cy_false, rfl, rfl⟩

/-- **C7 counterexample** — the claim says `execute(Hlt, io)` returns no
cycle count ("None") rather than an error; on the concrete state
`sysC7` it returns the unimplemented-opcode error. -/
theorem execute_hlt_is_error :
    (sysC7.execute .Hlt ioZero).1 = .error .unsupported :=
  rfl

/-- **C7 (amended)** — `execute(Hlt, io)` returns an error (the
unimplemented-opcode fallback `_ => Err(..)`, shared with RLC and SPHL)
and leaves the whole state, in particular PC, unchanged. -/
theorem execute_hlt_error_state_unchanged (s : System) (io : Nat → Nat) :
    s.execute .Hlt io = (.error .unsupported, s) :=
  rfl

/-- **C8** — the claim says INX/DCX succeed for every pair in
{B, D, H, SP}.  Evaluating the code at the failing input: for the pair
`SP` the executor reaches the `panic!` in `RegisterPair::split`
(modelled as `ExecErr.panicked`), for both INX and DCX. -/
theorem inx_dcx_sp_panic :
    sysC8.execute (.Inx .SP) ioZero = (.error .panicked, sysC8) ∧
    sysC8.execute (.Dcx .SP) ioZero = (.error .panicked, sysC8) :=
  ⟨rfl, rfl⟩

/-- Reassembling a 16-bit value from the low byte and the shifted high
byte, as `ret` does with the bytes `call` pushed. -/
theorem to_u16_split (n : Nat) (hn : n < 65536) :
    to_u16 (n &&& 0xff) ((n >>> 8) % 256) = n := by
  have h8 : n >>> 8 < 256 := by
    rw [Nat.shiftRight_eq_div_pow]; omega
  have hmod : n &&& 255 = n % 256 := by
    have h := Nat.and_pow_two_sub_one_eq_mod n 8
    norm_num at h
    exact h
  rw [Nat.mod_eq_of_lt h8]
  unfold to_u16
  rw [Nat.shiftLeft_eq, Nat.shiftRight_eq_div_pow, hmod]
  have hor := Nat.mul_add_lt_is_or (i := 8) (b := n % 256) (by omega) (n / 2 ^ 8)
  calc n / 2 ^ 8 * 2 ^ 8 ||| n % 256
      = 2 ^ 8 * (n / 2 ^ 8) ||| n % 256 := by rw [Nat.mul_comm]
    _ = 2 ^ 8 * (n / 2 ^ 8) + n % 256 := hor.symm
    _ = n := by omega

/-- An in-bounds `Ram.write` succeeds with the byte replaced. -/
theorem write_ok (r : Ram) (addr v : Nat) (h : addr < r.ram.length) :
    r.write addr v = .ok ⟨r.ram.set addr v, r.rom_ranges⟩ := by
  simp [Ram.write, h]

/-- An in-bounds `Ram.get` succeeds with the stored byte. -/
theorem get_ok (r : Ram) (addr : Nat) (h : addr < r.ram.length) :
    r.get addr = .ok (r.ram.getD addr 0) := by
  unfold Ram.get
  rw [List.getElem?_eq_getElem h, List.getD_eq_getElem _ _ h]

/-- `System::call` on an in-bounds stack: high byte of the return pc at
SP-1, low byte at SP-2, SP decremented by 2, target returned as pc. -/
theorem call_eq (regs : List Nat) (sp pc addr pcn : Nat) (ib : Bool)
    (ram : List Nat) (roms : List (Nat × Nat))
    (h2 : 2 ≤ sp) (hlen : sp ≤ ram.length) (hsp : sp < 65536) :
    System.call ⟨⟨regs, sp, pc, ib⟩, ⟨ram, roms⟩⟩ addr pcn =
      .ok (addr, ⟨⟨regs, sp - 2, pc, ib⟩,
        ⟨(ram.set (sp - 1) ((pcn >>> 8) % 256)).set (sp - 2) (pcn &&& 0xff), roms⟩⟩) := by
  have e1 : (sp + 65536 - 1) % 65536 = sp - 1 := by omega
  have e2 : (sp + 65536 - 2) % 65536 = sp - 2 := by omega
  have hl1 : sp - 1 < ram.length := by omega
  simp only [System.call, e1, e2]
  rw [write_ok _ _ _ hl1]
  simp only [liftMem, Bind.bind, Except.bind]
  have hl2 : sp - 2 < ((ram.set (sp - 1) ((pcn >>> 8) % 256))).length := by
    simp [List.length_set]; omega
  rw [write_ok _ _ _ hl2]

/-- `System::ret` on an in-bounds stack: pops the 16-bit address stored
at SP (low) and SP+1 (high) and increments SP by 2. -/
theorem ret_eq (regs : List Nat) (sp pc : Nat) (ib : Bool)
    (ram : List Nat) (roms : List (Nat × Nat))
    (h1 : sp + 1 < ram.length) (hsp : sp + 1 < 65536) :
    System.ret ⟨⟨regs, sp, pc, ib⟩, ⟨ram, roms⟩⟩ =
      .ok (to_u16 (ram.getD sp 0) (ram.getD (sp + 1) 0),
           ⟨⟨regs, (sp + 2) % 65536, pc, ib⟩, ⟨ram, roms⟩⟩) := by
  have e1 : (sp + 1) % 65536 = sp + 1 := by omega
  simp only [System.ret, e1]
  rw [get_ok _ _ (show sp < ram.length by omega), get_ok _ _ h1]
  simp only [liftMem, Bind.bind, Except.bind]

set_option maxHeartbeats 2000000 in
/-- **C9** — executing CALL addr from a state whose SP-1 and SP-2 are in
bounds pushes PC+3 (the address of the byte after the 3-byte CALL) and
jumps to addr; an immediately following RET (pushed bytes undisturbed)
pops that address, returning control to the instruction after the CALL
with SP restored to its pre-CALL value. -/
theorem call_ret_round_trip (s : System) (addr : Nat) (io : Nat → Nat)
    (h2 : 2 ≤ s.cpu.sp) (hlen : s.cpu.sp ≤ s.ram.ram.length)
    (hsp : s.cpu.sp < 65536) (hpc : s.cpu.pc + 3 < 65536) :
    ∃ s1 s2 : System,
      s.execute (.Call addr) io = (.ok 17, s1) ∧
      s1.cpu.pc = addr ∧
      s1.cpu.sp = s.cpu.sp - 2 ∧
      s1.execute .Ret io = (.ok 10, s2) ∧
      s2.cpu.pc = s.cpu.pc + 3 ∧
      s2.cpu.sp = s.cpu.sp := by
  obtain ⟨⟨regs, sp, pc, ib⟩, ⟨ram, roms⟩⟩ := s
  simp only [] at h2 hlen hsp hpc
  have epc : (pc + 3) % 65536 = pc + 3 := by omega
  set ram2 : List Nat :=
    (ram.set (sp - 1) (((pc + 3) >>> 8) % 256)).set (sp - 2) ((pc + 3) &&& 0xff) with hram2
  have hlen2 : (sp - 2) + 1 < ram2.length := by
    simp [hram2, List.length_set]; omega
  have hget1 : ram2.getD (sp - 2) 0 = (pc + 3) &&& 0xff := by
    rw [List.getD_eq_getElem?_getD, hram2,
      List.getElem?_set_self (by simp [List.length_set]; omega)]
    rfl
  have hget2 : ram2.getD (sp - 2 + 1) 0 = ((pc + 3) >>> 8) % 256 := by
    have e5 : sp - 2 + 1 = sp - 1 := by omega
    rw [e5, List.getD_eq_getElem?_getD, hram2,
      List.getElem?_set_ne (by omega), List.getElem?_set_self (by omega)]
    rfl
  refine ⟨⟨⟨regs, sp - 2, addr, ib⟩, ⟨ram2, roms⟩⟩,
          ⟨⟨regs, sp, pc + 3, ib⟩, ⟨ram2, roms⟩⟩, ?_, rfl, rfl, ?_, rfl, rfl⟩
  · simp only [System.execute, Instruction.size, Instruction.cycles, epc]
    rw [call_eq regs sp pc addr (pc + 3) ib ram roms h2 hlen hsp]
  · simp only [System.execute, Instruction.size, Instruction.cycles]
    rw [ret_eq regs (sp - 2) addr ib ram2 roms hlen2 (by omega)]
    rw [hget1, hget2, to_u16_split (pc + 3) hpc]
    have e6 : (sp - 2 + 2) % 65536 = sp := by omega
    rw [e6]

/-- Concrete machine for the C9 witness: SP = 6 inside an 8-byte RAM,
PC = 0x0010. -/
def sysC9 : System := ⟨⟨List.replicate 8 0, 6, 0x10, false⟩, Ram.new 8⟩

/-- **C9 witness** — the round trip at a concrete state: CALL 0x0100
then RET lands back at 0x0013 with SP restored to 6. -/
theorem call_ret_round_trip_witness :
    ∃ s1 s2 : System,
      sysC9.execute (.Call 0x0100) ioZero = (.ok 17, s1) ∧
      s1.cpu.pc = 0x0100 ∧
      s1.cpu.sp = sysC9.cpu.sp - 2 ∧
      s1.execute .Ret ioZero = (.ok 10, s2) ∧
      s2.cpu.pc = sysC9.cpu.pc + 3 ∧
      s2.cpu.sp = sysC9.cpu.sp :=
  call_ret_round_trip sysC9 0x0100 ioZero (by decide) (by decide) (by decide)
    (by decide)

/-- **C10** — whenever `register_rom` reports an error (too-long or
overlapping section), the returned buffer — bytes and registered ROM
ranges alike — is exactly the pre-call one; bytes are copied and the
range recorded only on the `Ok` path. -/
theorem register_rom_error_leaves_ram (r : Ram) (rom : List Nat) (offset : Nat)
    (e : MemoryError) (h : (Ram.register_rom r rom offset).1 = .error e) :
    (Ram.register_rom r rom offset).2 = r := by
  by_cases h1 : offset + rom.length > r.ram.length
  · simp [Ram.register_rom, h1]
  · rcases h2 : List.find?
        (fun p => decide (offset + rom.length > p.1) && decide (p.1 + p.2 > offset))
        r.rom_ranges with _ | p
    · exfalso
      simp [Ram.register_rom, h1, h2] at h
    · simp [Ram.register_rom, h1, h2]

/-- **C10 witness** — registering a (55, 20) section over an existing
(50, 10) section fails, and the theorem applied there shows the buffer
is untouched. -/
theorem register_rom_error_leaves_ram_witness :
    (Ram.register_rom ((Ram.register_rom (Ram.new 100) (List.replicate 10 0) 50).2)
        (List.replicate 20 0) 55).2 =
      (Ram.register_rom (Ram.new 100) (List.replicate 10 0) 50).2 :=
  register_rom_error_leaves_ram _ _ 55 (.OverlappingRomSections 50 10 55 20) rfl

end Emu8080
